import Mathlib

/-!
# gobank: the authorization gate, the handlers and the account store

A shallow embedding of `api.go` and `storage.go`.

* A Go function with side effects becomes a function on an explicit `World`
  (standard output, the log, the account table) that returns an `Outcome`:
  it returns normally, or the process is terminated (`log.Fatal`), or the
  goroutine panics.
* `http.ResponseWriter` is a recorder of what was written on it; a handler
  takes the writer and hands back the writer it leaves behind.
* The libraries the code calls are parameters or small models:
  `jwt.ParseWithClaims` and `SignedString` are parameters, `encoding/json`
  decoding is a parameter, `strconv.Atoi` and the four SQL statements are
  modelled directly.
* Go `int` and `int64` are `Int`; the one place where the width is visible,
  the range check of `strconv.Atoi`, is explicit (64 bits).
-/

namespace GoBank

/-! ## Data model -/

/-- The struct `ApiError` of `api.go`; its field is tagged `json:"error"`, so
it is encoded as the JSON object with the single key `error`. -/
structure ApiError where
  Error : String
  deriving DecidableEq, Repr

/-- Modelled from the spec: the struct `Account`, whose declaration is not
among the sources. The fields are the six that `scanIntoAccount` fills and
the spec lists (id, firstName, lastName, number, balance, createdAt); the
timestamp is kept as a number. -/
structure Account where
  ID : Int
  FirstName : String
  LastName : String
  Number : Int
  Balance : Int
  CreatedAt : Int
  deriving DecidableEq, Repr

/-- Modelled from the spec: the struct `CreateAccountRequest`, whose
declaration is not among the sources (payload: firstName, lastName). -/
structure CreateAccountRequest where
  FirstName : String
  LastName : String
  deriving DecidableEq, Repr

/-- Modelled from the spec: the struct `TranseferRequest`, whose declaration
is not among the sources (payload: toAccount, amount). -/
structure TranseferRequest where
  ToAccount : Int
  Amount : Int
  deriving DecidableEq, Repr

/-- The values the code hands to `WriteJSON` as `v any`, one constructor per
Go type that occurs at a call site:
`ApiError`, `*Account`, `[]*Account`, `map[string]string` with the key `token`,
`map[string]int` with the key `deleted`, `*TranseferRequest`. -/
inductive Value where
  | apiError (e : ApiError)
  | account (a : Account)
  | accounts (l : List Account)
  | token (t : String)
  | deleted (id : Int)
  | transfer (t : TranseferRequest)
  deriving DecidableEq, Repr

/-! ## net/http -/

namespace http

def StatusOK : Nat := 200
def StatusForbidden : Nat := 403
def StatusInternalServerError : Nat := 500

/-- The header map: names and values, in insertion order. -/
abbrev Header := List (String × String)

/-- The call `h.Get(key)`: the first value stored under the name, the empty
string when there is none. Header names are not case-sensitive in Go; here a
header is stored under the name the code asks for. -/
def Header.Get (h : Header) (key : String) : String :=
  (h.lookup key).getD ""

/-- The call `h.Add(key, value)`. -/
def Header.Add (h : Header) (key value : String) : Header :=
  h ++ [(key, value)]

/-- What the code reads of `*http.Request`: method, headers, the values of
the path wildcards and the body text. -/
structure Request where
  Method : String
  Header : Header
  PathValues : List (String × String)
  Body : String
  deriving DecidableEq, Repr

/-- The call `r.PathValue(name)`: the empty string when the route has no such
wildcard. -/
def Request.PathValue (r : Request) (name : String) : String :=
  (r.PathValues.lookup name).getD ""

/-- The response writer as a recorder in the way of `httptest.ResponseRecorder`:
the header map, the status code once it is sent, and the values encoded
into the body so far. -/
structure ResponseWriter where
  header : Header
  status : Option Nat
  body : List Value
  deriving DecidableEq, Repr

/-- A writer on which nothing has been written. -/
def ResponseWriter.fresh : ResponseWriter := ⟨[], none, []⟩

/-- The call `w.WriteHeader(status)`: the first call fixes the status code, a
later call is superfluous and changes nothing. -/
def ResponseWriter.WriteHeader (w : ResponseWriter) (status : Nat) : ResponseWriter :=
  match w.status with
  | none => { w with status := some status }
  | some _ => w

end http

/-! ## The process -/

/-- The table `accounts` that `CreateTable` creates: its rows, keyed by the
column `id`, and the counter that `autoincrement` keeps (the largest row id
handed out so far). -/
structure DB where
  accounts : List Account
  seq : Int
  deriving DecidableEq, Repr

/-- The state outside a single request: the lines printed with `fmt.Println`,
the lines written through `log`, and the account table. -/
structure World where
  stdout : List String
  log : List String
  db : DB
  deriving DecidableEq, Repr

/-- How a call ends: it returns a value, or the process has been terminated
with an exit code (no caller runs any further), or the goroutine panicked. -/
inductive Outcome (α : Type) where
  | ret (val : α) (σ : World)
  | exit (code : Nat) (σ : World)
  | panic (msg : String) (σ : World)
  deriving DecidableEq, Repr

/-- The call `fmt.Println(line)`. -/
def fmt.Println (line : String) (σ : World) : World :=
  { σ with stdout := σ.stdout ++ [line] }

/-- The call `log.Fatal(msg)`: the message is logged and the process exits
with code 1; nothing after the call runs. -/
def log.Fatal {α : Type} (msg : String) (σ : World) : Outcome α :=
  .exit 1 { σ with log := σ.log ++ [msg] }

/-- The type `http.HandlerFunc`. -/
abbrev HandlerFunc := http.ResponseWriter → http.Request → World → Outcome http.ResponseWriter

/-- The type `apiFunc`: a handler that also returns an error (`none` is `nil`). -/
abbrev apiFunc :=
  http.ResponseWriter → http.Request → World → Outcome (http.ResponseWriter × Option String)

/-! ## strconv -/

namespace strconv

/-- The two errors of `strconv.Atoi`: invalid text, value out of range. -/
inductive NumError where
  | invalid
  | outOfRange
  deriving DecidableEq, Repr

/-- The value of a string of decimal digits; `none` as soon as a character is
not a digit. -/
def parseDigits (cs : List Char) : Option Nat :=
  cs.foldl
    (fun acc c =>
      match acc with
      | none => none
      | some n => if c.isDigit then some (n * 10 + (c.toNat - 48)) else none)
    (some 0)

/-- The function `strconv.Atoi` for a 64-bit `int`: an optional sign followed by
at least one decimal digit, the value within the range of `int`. On invalid
text the value is 0, out of range it is the nearest bound. -/
def Atoi (s : String) : Int × Option NumError :=
  let cs := s.toList
  let neg := cs.head? == some '-'
  let ds := if cs.head? == some '-' || cs.head? == some '+' then cs.tail else cs
  if ds.isEmpty then (0, some .invalid)
  else
    match parseDigits ds with
    | none => (0, some .invalid)
    | some n =>
      if neg then
        if n ≤ 2 ^ 63 then (-(n : Int), none) else (-(2 ^ 63 : Int), some .outOfRange)
      else
        if n < 2 ^ 63 then ((n : Int), none) else ((2 ^ 63 : Int) - 1, some .outOfRange)

end strconv

/-! ## jwt -/

namespace jwt

/-- What the code touches of `jwt.RegisteredClaims`: the issuer it prints and
the expiry. -/
structure RegisteredClaims where
  Issuer : String
  ExpiresAt : Option Int
  deriving DecidableEq, Repr

end jwt

/-- The struct `MyCustomClaims` of `api.go`. -/
structure MyCustomClaims where
  AccountNumber : Int
  AccountID : Int
  RegisteredClaims : jwt.RegisteredClaims
  deriving DecidableEq, Repr

namespace jwt

/-- The interface value `token.Claims`: the custom claims of this program, or
a value of some other dynamic type. -/
inductive Claims where
  | custom (c : MyCustomClaims)
  | other
  deriving DecidableEq, Repr

/-- What the code reads of `*jwt.Token`. -/
structure Token where
  Valid : Bool
  Claims : Claims
  deriving DecidableEq, Repr

/-- The call `jwt.ParseWithClaims(tokenString, &MyCustomClaims, keyFunc)` with
the key function of `validateJWT` (the fixed secret): a token, or the error
of the library. -/
abbrev ParseFn := String → Except String Token

/-- The call `jwt.NewWithClaims(SigningMethodHS256, claims).SignedString(key)`
with the fixed secret: the token text, or the error of the library. -/
abbrev SignFn := MyCustomClaims → Except String String

end jwt

/-! ## api.go -/

/-- The function `WriteJSON`: add the content type, send the status, encode
the value; the encoder writes into the recorder, which takes every write,
so the error returned is `nil`. -/
def WriteJSON (w : http.ResponseWriter) (status : Nat) (v : Value) :
    http.ResponseWriter × Option String :=
  let w1 := { w with header := w.header.Add "Content-Type" "application/json" }
  let w2 := w1.WriteHeader status
  ({ w2 with body := w2.body ++ [v] }, none)

/-- The function `permissionDenied`. -/
def permissionDenied (w : http.ResponseWriter) : http.ResponseWriter :=
  (WriteJSON w http.StatusForbidden (.apiError ⟨"permission denied"⟩)).1

/-- The function `makeHTTPHandleFunc`. -/
def makeHTTPHandleFunc (f : apiFunc) : HandlerFunc := fun w r σ =>
  match f w r σ with
  | .ret (w1, some err) σ1 =>
    .ret (WriteJSON w1 http.StatusInternalServerError (.apiError ⟨err⟩)).1 σ1
  | .ret (w1, none) σ1 => .ret w1 σ1
  | .exit code σ1 => .exit code σ1
  | .panic msg σ1 => .panic msg σ1

/-- The function `getID`: the path value `id` through `strconv.Atoi`. -/
def getID (r : http.Request) : Int × Option String :=
  let idStr := r.PathValue "id"
  match strconv.Atoi idStr with
  | (id, some _) => (id, some ("invalid id given: " ++ idStr))
  | (id, none) => (id, none)

/-- The function `validateJWT`: an error of the library ends the process
through `log.Fatal`; otherwise the claims are printed and the token is
returned together with the (then `nil`) error. -/
def validateJWT (parse : jwt.ParseFn) (tokenString : String) (σ : World) :
    Outcome (jwt.Token × Option String) :=
  match parse tokenString with
  | .error err => log.Fatal err σ
  | .ok token =>
    match token.Claims with
    | .custom claims =>
      .ret (token, none)
        (fmt.Println (toString claims.AccountNumber ++ " " ++ claims.RegisteredClaims.Issuer) σ)
    | .other => log.Fatal "unknown claims type, cannot proceed" σ

/-- The function `withJWTAuth`. The test `len(tokenString) == 0` holds for the
empty string only. The type assertion on `token.Claims` has no second
result, so a claims value of another type is a panic. -/
def withJWTAuth (parse : jwt.ParseFn) (handlerFunc : HandlerFunc) : HandlerFunc := fun w r σ =>
  let σ0 := fmt.Println "With JWT Auth middleware" σ
  let tokenString := r.Header.Get "x-jwt-token"
  if tokenString.length == 0 then .ret (permissionDenied w) σ0
  else
    match validateJWT parse tokenString σ0 with
    | .exit code σ1 => .exit code σ1
    | .panic msg σ1 => .panic msg σ1
    | .ret (token, err) σ1 =>
      if err.isSome || !token.Valid then .ret (permissionDenied w) σ1
      else
        match token.Claims with
        | .other => .panic "interface conversion" σ1
        | .custom claims =>
          match getID r with
          | (_, some _) => .ret (permissionDenied w) σ1
          | (id, none) =>
            if claims.AccountID != id then .ret (permissionDenied w) σ1
            else handlerFunc w r σ1

/-! ## storage.go -/

namespace sql

/-- What `db.Exec` returns besides the error: the row id of the last insert and
the number of rows affected. -/
structure Result where
  LastInsertId : Int
  RowsAffected : Nat
  deriving DecidableEq, Repr

/-- The row id `autoincrement` gives the next row: one more than the largest
id handed out so far and than every id in the table. -/
def nextID (db : DB) : Int :=
  (db.accounts.foldl (fun m a => max m a.ID) db.seq) + 1

/-- The statement `insert into accounts (first_name, last_name, number,
balance, created_at) values (?, ?, ?, ?, ?)`. -/
def execInsert (db : DB) (firstName lastName : String) (number balance createdAt : Int) :
    Except String (DB × Result) :=
  let id := nextID db
  .ok (⟨db.accounts ++ [⟨id, firstName, lastName, number, balance, createdAt⟩], id⟩, ⟨id, 1⟩)

/-- The statement `delete from accounts where id = ?`. -/
def execDelete (db : DB) (id : Int) : Except String (DB × Result) :=
  let kept := db.accounts.filter (fun a => a.ID != id)
  .ok ({ db with accounts := kept }, ⟨0, db.accounts.length - kept.length⟩)

/-- The statement `select id, first_name, last_name, number, balance,
created_at from accounts where id = ?`: the matching rows. -/
def queryByID (db : DB) (id : Int) : Except String (List Account) :=
  .ok (db.accounts.filter (fun a => a.ID == id))

/-- The statement `select id, first_name, last_name, number, balance,
created_at from accounts`: all rows. -/
def queryAll (db : DB) : Except String (List Account) :=
  .ok db.accounts

end sql

/-- The function `scanIntoAccount`: the six columns of the current row go into
a new `Account`. -/
def scanIntoAccount (row : Account) : Except String Account :=
  .ok ⟨row.ID, row.FirstName, row.LastName, row.Number, row.Balance, row.CreatedAt⟩

namespace SQLiteStore

/-- The method `SQLiteStore.CreateAccount` of `storage.go`: the result of
`db.Exec` is dropped and the only thing returned is the error. -/
def CreateAccount (db : DB) (acc : Account) : DB × Option String :=
  match sql.execInsert db acc.FirstName acc.LastName acc.Number acc.Balance acc.CreatedAt with
  | .error err => (db, some err)
  | .ok (db1, _) => (db1, none)

/-- The method `SQLiteStore.DeleteAccount`. -/
def DeleteAccount (db : DB) (id : Int) : DB × Option String :=
  match sql.execDelete db id with
  | .error err => (db, some err)
  | .ok (db1, _) => (db1, none)

/-- The method `SQLiteStore.UpdateAccount`: it does nothing. -/
def UpdateAccount (db : DB) (_acc : Account) : DB × Option String :=
  (db, none)

/-- The method `SQLiteStore.GetAccountByID`: the first matching row, and the
error `account <id> not found` when the query has no row. -/
def GetAccountByID (db : DB) (id : Int) : Except String Account :=
  match sql.queryByID db id with
  | .error err => .error err
  | .ok rows =>
    match rows with
    | row :: _ => scanIntoAccount row
    | [] => .error ("account " ++ toString id ++ " not found")

/-- The loop of `GetAccounts` over the rows, appending each scanned account. -/
def scanAll : List Account → List Account → Except String (List Account)
  | [], accounts => .ok accounts
  | row :: rest, accounts =>
    match scanIntoAccount row with
    | .error err => .error err
    | .ok account => scanAll rest (accounts ++ [account])

/-- The method `SQLiteStore.GetAccounts`. -/
def GetAccounts (db : DB) : Except String (List Account) :=
  match sql.queryAll db with
  | .error err => .error err
  | .ok rows => scanAll rows []

end SQLiteStore

namespace SpecStore

/-- Modelled from the spec: the store operation `CreateAccount` in the shape
`handleCreateAccount` calls it, with an identifier and an error as results.
No method of that shape is among the sources (`storage.go` has the method
with the error alone). By the spec it inserts a new row from the account's
fields except the identifier, the store assigns the identifier, and the
caller retrieves the identifier that was generated: the insert is the
statement of `SQLiteStore.CreateAccount`, the identifier the row id of that
insert. -/
def CreateAccount (db : DB) (acc : Account) : DB × Int × Option String :=
  match sql.execInsert db acc.FirstName acc.LastName acc.Number acc.Balance acc.CreatedAt with
  | .error err => (db, 0, some err)
  | .ok (db1, res) => (db1, res.LastInsertId, none)

end SpecStore

/-- The interface `Storage` as `storage.go` declares it; every method acts on
the account table. -/
structure Storage where
  CreateAccount : DB → Account → DB × Option String
  DeleteAccount : DB → Int → DB × Option String
  UpdateAccount : DB → Account → DB × Option String
  GetAccounts : DB → Except String (List Account)
  GetAccountByID : DB → Int → Except String Account

/-- The store that `main` builds: `SQLiteStore` behind the interface. -/
def NewSQLiteStore : Storage :=
  ⟨SQLiteStore.CreateAccount, SQLiteStore.DeleteAccount, SQLiteStore.UpdateAccount,
    SQLiteStore.GetAccounts, SQLiteStore.GetAccountByID⟩

/-! ## api.go: the server and its handlers -/

/-- The struct `APIServer`. -/
structure APIServer where
  listenAddr : String
  store : Storage

/-- The function `NewAPIServer`. -/
def NewAPIServer (listenAddr : String) (store : Storage) : APIServer :=
  ⟨listenAddr, store⟩

/-- The method `handleGetAccountByID`. -/
def APIServer.handleGetAccountByID (s : APIServer) : apiFunc := fun w r σ =>
  match getID r with
  | (_, some err) => .ret (w, some err) σ
  | (id, none) =>
    match s.store.GetAccountByID σ.db id with
    | .error err => .ret (w, some err) σ
    | .ok account => .ret (WriteJSON w http.StatusOK (.account account)) σ

/-- The method `handleDeleteAccount`. -/
def APIServer.handleDeleteAccount (s : APIServer) : apiFunc := fun w r σ =>
  match getID r with
  | (_, some err) => .ret (w, some err) σ
  | (id, none) =>
    match s.store.DeleteAccount σ.db id with
    | (db1, some err) => .ret (w, some err) { σ with db := db1 }
    | (db1, none) => .ret (WriteJSON w http.StatusOK (.deleted id)) { σ with db := db1 }

/-- The method `handleGetAccount`. -/
def APIServer.handleGetAccount (s : APIServer) : apiFunc := fun w _r σ =>
  match s.store.GetAccounts σ.db with
  | .error err => .ret (w, some err) σ
  | .ok accounts => .ret (WriteJSON w http.StatusOK (.accounts accounts)) σ

/-- The method `handleTransfer`; `decode` is `json.NewDecoder(r.Body).Decode`
into a `TranseferRequest`. The deferred `r.Body.Close()` changes nothing that
is recorded here. -/
def APIServer.handleTransfer (_s : APIServer)
    (decode : String → Except String TranseferRequest) : apiFunc := fun w r σ =>
  match decode r.Body with
  | .error err => .ret (w, some err) σ
  | .ok transferRequest => .ret (WriteJSON w http.StatusOK (.transfer transferRequest)) σ

/-- The function `createJWT`: the claims are the account's number and id,
the registered claims are left at their zero value. -/
def createJWT (sign : jwt.SignFn) (account : Account) : Except String String :=
  let claims : MyCustomClaims :=
    { AccountNumber := account.Number, AccountID := account.ID, RegisteredClaims := ⟨"", none⟩ }
  sign claims

/-- The method `handleCreateAccount`. `decode` is the JSON decoder into a
`CreateAccountRequest`, `NewAccount` the constructor that is not among the
sources. The call `s.store.CreateAccount(account)` is written with two
results, an id and an error, which the method of `Storage` does not have:
`createAccount` stands for the call as the handler uses it. -/
def APIServer.handleCreateAccount (_s : APIServer)
    (decode : String → Except String CreateAccountRequest)
    (NewAccount : String → String → Account)
    (createAccount : DB → Account → DB × Int × Option String)
    (sign : jwt.SignFn) : apiFunc := fun w r σ =>
  match decode r.Body with
  | .error err => .ret (w, some err) σ
  | .ok createAccountRequest =>
    let account := NewAccount createAccountRequest.FirstName createAccountRequest.LastName
    match createAccount σ.db account with
    | (db1, _, some err) => .ret (w, some err) { σ with db := db1 }
    | (db1, id, none) =>
      let account := { account with ID := id }
      match createJWT sign account with
      | .error err => .ret (w, some err) { σ with db := db1 }
      | .ok token => .ret (WriteJSON w http.StatusOK (.token token)) { σ with db := db1 }

/-- The route `GET /account/(id)` as `Run` registers it. -/
def APIServer.routeGetAccountByID (s : APIServer) (parse : jwt.ParseFn) : HandlerFunc :=
  withJWTAuth parse (makeHTTPHandleFunc s.handleGetAccountByID)

/-- The route `DELETE /account/(id)` as `Run` registers it. -/
def APIServer.routeDeleteAccount (s : APIServer) (parse : jwt.ParseFn) : HandlerFunc :=
  withJWTAuth parse (makeHTTPHandleFunc s.handleDeleteAccount)

/-- The route `POST /transfer` as `Run` registers it. -/
def APIServer.routeTransfer (s : APIServer)
    (decode : String → Except String TranseferRequest) : HandlerFunc :=
  makeHTTPHandleFunc (s.handleTransfer decode)

/-- The route `GET /account` as `Run` registers it. -/
def APIServer.routeGetAccount (s : APIServer) : HandlerFunc :=
  makeHTTPHandleFunc s.handleGetAccount

/-! ## Definitions used by the statements -/

/-- The world in which `withJWTAuth` runs its checks once `validateJWT` has
returned: the two lines printed so far, nothing else changed. -/
def gateWorld (claims : MyCustomClaims) (σ : World) : World :=
  fmt.Println (toString claims.AccountNumber ++ " " ++ claims.RegisteredClaims.Issuer)
    (fmt.Println "With JWT Auth middleware" σ)

/-- The value `ApiError("permission denied")` that the gate encodes. -/
def deniedBody : Value := .apiError ⟨"permission denied"⟩

/-! ### Worked inputs -/

/-- A stand-in for the library's verifier on the worked inputs: the text
`tok-7` is a valid token of account 7 (number 4242), `tok-stale` parses but is
not valid, every other text is an error of the library. -/
def sampleParse : jwt.ParseFn := fun tokenString =>
  if tokenString = "tok-7" then .ok ⟨true, .custom ⟨4242, 7, ⟨"", none⟩⟩⟩
  else if tokenString = "tok-stale" then .ok ⟨false, .custom ⟨4242, 7, ⟨"", none⟩⟩⟩
  else .error "token signature is invalid: signature is invalid"

/-- A request for `/account/(id)` with the given method, token header and
path value. -/
def sampleRequest (method token id : String) : http.Request :=
  ⟨method, [("x-jwt-token", token)], [("id", id)], ""⟩

/-- A request for `/account/(id)` without the token header. -/
def sampleRequestNoToken (id : String) : http.Request :=
  ⟨"GET", [], [("id", id)], ""⟩

/-- The account of the worked inputs, stored under the given id. -/
def sampleAccount (id : Int) : Account :=
  ⟨id, "A", "B", 4242, 0, 1700000000⟩

/-- A world with nothing printed and the given rows in the table. -/
def sampleWorld (rows : List Account) (seq : Int) : World :=
  ⟨[], [], ⟨rows, seq⟩⟩

/-- A wrapped handler that prints the line `handler` and answers 200 with the
text `served`. -/
def sampleHandler : HandlerFunc := fun w _r σ =>
  .ret (WriteJSON w http.StatusOK (.token "served")).1 (fmt.Println "handler" σ)

/-- A wrapped handler that ends the process. -/
def stopHandler : HandlerFunc := fun _w _r σ => .exit 7 σ

/-- A stand-in for the JSON decoder on the worked inputs: it reads the one
transfer payload with `toAccount` 5 and `amount` 100. -/
def sampleDecodeTransfer : String → Except String TranseferRequest := fun body =>
  if body = "\x7b\"toAccount\":5,\"amount\":100\x7d" then .ok ⟨5, 100⟩
  else .error "invalid character"

/-- The request `POST /transfer` with the payload of the worked inputs. -/
def sampleTransferRequest : http.Request :=
  ⟨"POST", [], [], "\x7b\"toAccount\":5,\"amount\":100\x7d"⟩

theorem String_length_beq_zero (s : String) : (s.length == 0) = true ↔ s = "" := by
  cases s with
  | mk l =>
    cases l with
    | nil => simp [String.length]
    | cons c cs =>
      simp [String.length]
      intro h
      exact absurd (congrArg String.data h) (by simp)

theorem String_length_beq_zero_false (s : String) (hne : s ≠ "") : (s.length == 0) = false := by
  cases hb : (s.length == 0)
  · rfl
  · exact absurd ((String_length_beq_zero s).1 hb) hne

theorem getID_of_Atoi_ok (r : http.Request) (id : Int)
    (ha : strconv.Atoi (r.PathValue "id") = (id, none)) : getID r = (id, none) := by
  simp [getID, ha]

theorem getID_of_Atoi_error (r : http.Request) (x : Int) (e : strconv.NumError)
    (ha : strconv.Atoi (r.PathValue "id") = (x, some e)) :
    getID r = (x, some ("invalid id given: " ++ r.PathValue "id")) := by
  simp [getID, ha]

theorem getID_ok_iff (r : http.Request) (id : Int) :
    getID r = (id, none) ↔ strconv.Atoi (r.PathValue "id") = (id, none) := by
  constructor
  · intro h
    rcases ha : strconv.Atoi (r.PathValue "id") with ⟨x, e⟩
    cases e with
    | none =>
      rw [getID_of_Atoi_ok r x ha] at h
      simp at h
      simp [h]
    | some e =>
      rw [getID_of_Atoi_error r x e ha] at h
      simp at h
  · exact getID_of_Atoi_ok r id

theorem permissionDenied_body (w : http.ResponseWriter) :
    (permissionDenied w).body = w.body ++ [deniedBody] := by
  unfold permissionDenied WriteJSON http.ResponseWriter.WriteHeader deniedBody
  cases w.status <;> rfl

theorem permissionDenied_status (w : http.ResponseWriter) (hw : w.status = none) :
    (permissionDenied w).status = some 403 := by
  unfold permissionDenied WriteJSON http.ResponseWriter.WriteHeader
  simp [hw, http.StatusForbidden]

/-! ## The branches of the gate -/

theorem withJWTAuth_missing (parse : jwt.ParseFn) (h : HandlerFunc) (w : http.ResponseWriter)
    (r : http.Request) (σ : World) (hm : r.Header.Get "x-jwt-token" = "") :
    withJWTAuth parse h w r σ
      = .ret (permissionDenied w) (fmt.Println "With JWT Auth middleware" σ) := by
  simp [withJWTAuth, hm]

theorem withJWTAuth_parse_error (parse : jwt.ParseFn) (h : HandlerFunc) (w : http.ResponseWriter)
    (r : http.Request) (σ : World) (err : String)
    (hne : r.Header.Get "x-jwt-token" ≠ "")
    (hp : parse (r.Header.Get "x-jwt-token") = .error err) :
    withJWTAuth parse h w r σ
      = .exit 1 ⟨σ.stdout ++ ["With JWT Auth middleware"], σ.log ++ [err], σ.db⟩ := by
  simp [withJWTAuth, validateJWT, String_length_beq_zero_false _ hne, hp, log.Fatal, fmt.Println]

theorem withJWTAuth_other_claims (parse : jwt.ParseFn) (h : HandlerFunc)
    (w : http.ResponseWriter) (r : http.Request) (σ : World) (v : Bool)
    (hne : r.Header.Get "x-jwt-token" ≠ "")
    (hp : parse (r.Header.Get "x-jwt-token") = .ok ⟨v, .other⟩) :
    withJWTAuth parse h w r σ
      = .exit 1 ⟨σ.stdout ++ ["With JWT Auth middleware"],
          σ.log ++ ["unknown claims type, cannot proceed"], σ.db⟩ := by
  simp [withJWTAuth, validateJWT, String_length_beq_zero_false _ hne, hp, log.Fatal, fmt.Println]

theorem withJWTAuth_not_valid (parse : jwt.ParseFn) (h : HandlerFunc) (w : http.ResponseWriter)
    (r : http.Request) (σ : World) (claims : MyCustomClaims)
    (hne : r.Header.Get "x-jwt-token" ≠ "")
    (hp : parse (r.Header.Get "x-jwt-token") = .ok ⟨false, .custom claims⟩) :
    withJWTAuth parse h w r σ = .ret (permissionDenied w) (gateWorld claims σ) := by
  simp [withJWTAuth, validateJWT, String_length_beq_zero_false _ hne, hp, gateWorld]

theorem withJWTAuth_bad_id (parse : jwt.ParseFn) (h : HandlerFunc) (w : http.ResponseWriter)
    (r : http.Request) (σ : World) (claims : MyCustomClaims) (x : Int) (e : String)
    (hne : r.Header.Get "x-jwt-token" ≠ "")
    (hp : parse (r.Header.Get "x-jwt-token") = .ok ⟨true, .custom claims⟩)
    (hid : getID r = (x, some e)) :
    withJWTAuth parse h w r σ = .ret (permissionDenied w) (gateWorld claims σ) := by
  simp [withJWTAuth, validateJWT, String_length_beq_zero_false _ hne, hp, hid, gateWorld]

theorem withJWTAuth_mismatch (parse : jwt.ParseFn) (h : HandlerFunc) (w : http.ResponseWriter)
    (r : http.Request) (σ : World) (claims : MyCustomClaims) (id : Int)
    (hne : r.Header.Get "x-jwt-token" ≠ "")
    (hp : parse (r.Header.Get "x-jwt-token") = .ok ⟨true, .custom claims⟩)
    (hid : getID r = (id, none)) (hneq : claims.AccountID ≠ id) :
    withJWTAuth parse h w r σ = .ret (permissionDenied w) (gateWorld claims σ) := by
  simp [withJWTAuth, validateJWT, String_length_beq_zero_false _ hne, hp, hid, hneq, gateWorld]

theorem withJWTAuth_pass (parse : jwt.ParseFn) (h : HandlerFunc) (w : http.ResponseWriter)
    (r : http.Request) (σ : World) (claims : MyCustomClaims)
    (hne : r.Header.Get "x-jwt-token" ≠ "")
    (hp : parse (r.Header.Get "x-jwt-token") = .ok ⟨true, .custom claims⟩)
    (hid : getID r = (claims.AccountID, none)) :
    withJWTAuth parse h w r σ = h w r (gateWorld claims σ) := by
  simp [withJWTAuth, validateJWT, String_length_beq_zero_false _ hne, hp, hid, gateWorld]

/-- Every run of the gate is of one of three kinds: all checks pass and the
handler is run on the writer and request the gate received; or the gate
returns the writer with the denial written on it, whatever the handler; or
the process is terminated, whatever the handler. -/
theorem withJWTAuth_cases (parse : jwt.ParseFn) (w : http.ResponseWriter) (r : http.Request)
    (σ : World) :
    (∃ claims, r.Header.Get "x-jwt-token" ≠ ""
        ∧ parse (r.Header.Get "x-jwt-token") = .ok ⟨true, .custom claims⟩
        ∧ getID r = (claims.AccountID, none)
        ∧ ∀ h, withJWTAuth parse h w r σ = h w r (gateWorld claims σ))
    ∨ (∃ σ1, ∀ h, withJWTAuth parse h w r σ = .ret (permissionDenied w) σ1)
    ∨ (∃ σ1, ∀ h, withJWTAuth parse h w r σ = .exit 1 σ1) := by
  by_cases hne : r.Header.Get "x-jwt-token" = ""
  · exact Or.inr (Or.inl ⟨_, fun h => withJWTAuth_missing parse h w r σ hne⟩)
  · rcases hp : parse (r.Header.Get "x-jwt-token") with err | ⟨v, c⟩
    · exact Or.inr (Or.inr ⟨_, fun h => withJWTAuth_parse_error parse h w r σ err hne hp⟩)
    · cases c with
      | other => exact Or.inr (Or.inr ⟨_, fun h => withJWTAuth_other_claims parse h w r σ v hne hp⟩)
      | custom claims =>
        cases v with
        | false =>
          exact Or.inr (Or.inl ⟨_, fun h => withJWTAuth_not_valid parse h w r σ claims hne hp⟩)
        | true =>
          rcases hid : getID r with ⟨id, e⟩
          cases e with
          | some e =>
            exact Or.inr (Or.inl ⟨_, fun h => withJWTAuth_bad_id parse h w r σ claims id e hne hp hid⟩)
          | none =>
            by_cases heq : claims.AccountID = id
            · subst heq
              exact Or.inl ⟨claims, hne, rfl, rfl,
                fun h => withJWTAuth_pass parse h w r σ claims hne hp hid⟩
            · exact Or.inr (Or.inl ⟨_,
                fun h => withJWTAuth_mismatch parse h w r σ claims id hne hp hid heq⟩)

/-! ## The authorization gate -/

/-- C1. A request whose token header is non-empty, whose token verifies (the
library returns a valid token with claims) and whose path id parses to an
integer other than the `AccountID` of the claims: `withJWTAuth` returns the
writer with the denial on it (body `ApiError("permission denied")`, status 403
on a writer that had sent none), the outcome is the same for every wrapped
handler, so the handler is not run, and the table is untouched. -/
theorem withJWTAuth_denies_other_account (parse : jwt.ParseFn) (h : HandlerFunc)
    (w : http.ResponseWriter) (r : http.Request) (σ : World) (claims : MyCustomClaims)
    (id : Int)
    (hne : r.Header.Get "x-jwt-token" ≠ "")
    (hp : parse (r.Header.Get "x-jwt-token") = .ok ⟨true, .custom claims⟩)
    (hid : strconv.Atoi (r.PathValue "id") = (id, none))
    (hneq : id ≠ claims.AccountID) :
    withJWTAuth parse h w r σ = .ret (permissionDenied w) (gateWorld claims σ)
      ∧ (∀ h2, withJWTAuth parse h2 w r σ = withJWTAuth parse h w r σ)
      ∧ (permissionDenied w).body = w.body ++ [.apiError ⟨"permission denied"⟩]
      ∧ (w.status = none → (permissionDenied w).status = some 403)
      ∧ (gateWorld claims σ).db = σ.db := by
  have key : ∀ h2, withJWTAuth parse h2 w r σ = .ret (permissionDenied w) (gateWorld claims σ) :=
    fun h2 => withJWTAuth_mismatch parse h2 w r σ claims id hne hp (getID_of_Atoi_ok r id hid)
      (fun e => hneq e.symm)
  exact ⟨key h, fun h2 => (key h2).trans (key h).symm, permissionDenied_body w,
    permissionDenied_status w, rfl⟩

/-- C1, worked input: the token of account 7 on `DELETE /account/8`, with a
wrapped handler that would end the process; the answer is 403 and both rows
are still in the table. -/
theorem withJWTAuth_denies_other_account_witness :
    withJWTAuth sampleParse stopHandler .fresh (sampleRequest "DELETE" "tok-7" "8")
        (sampleWorld [sampleAccount 7, sampleAccount 8] 8)
      = .ret ⟨[("Content-Type", "application/json")], some 403,
            [.apiError ⟨"permission denied"⟩]⟩
          ⟨["With JWT Auth middleware", "4242 "], [],
            ⟨[sampleAccount 7, sampleAccount 8], 8⟩⟩ := by
  rw [(withJWTAuth_denies_other_account sampleParse stopHandler .fresh
    (sampleRequest "DELETE" "tok-7" "8") (sampleWorld [sampleAccount 7, sampleAccount 8] 8)
    ⟨4242, 7, ⟨"", none⟩⟩ 8 (by decide) rfl (by decide) (by decide)).1]
  decide

/-- C2, what the code does. A request whose token header is non-empty and
whose token the library rejects with an error: `validateJWT` calls
`log.Fatal`, so `withJWTAuth` does not return; the process exits with code 1
after logging the error, and no response is written (there is no returned
writer at all), whatever the wrapped handler is. -/
theorem withJWTAuth_rejected_token_ends_process (parse : jwt.ParseFn) (h : HandlerFunc)
    (w : http.ResponseWriter) (r : http.Request) (σ : World) (err : String)
    (hne : r.Header.Get "x-jwt-token" ≠ "")
    (hp : parse (r.Header.Get "x-jwt-token") = .error err) :
    withJWTAuth parse h w r σ
        = .exit 1 ⟨σ.stdout ++ ["With JWT Auth middleware"], σ.log ++ [err], σ.db⟩
      ∧ ∀ w1 σ1, withJWTAuth parse h w r σ ≠ .ret w1 σ1 := by
  have key := withJWTAuth_parse_error parse h w r σ err hne hp
  refine ⟨key, fun w1 σ1 hc => ?_⟩
  rw [key] at hc
  cases hc

/-- C2, worked input: `GET /account/7` with a token the verifier rejects. -/
theorem withJWTAuth_rejected_token_ends_process_witness :
    withJWTAuth sampleParse sampleHandler .fresh (sampleRequest "GET" "forged" "7")
        (sampleWorld [sampleAccount 7] 7)
      = .exit 1 ⟨["With JWT Auth middleware"],
          ["token signature is invalid: signature is invalid"], ⟨[sampleAccount 7], 7⟩⟩ := by
  rw [(withJWTAuth_rejected_token_ends_process sampleParse sampleHandler .fresh
    (sampleRequest "GET" "forged" "7") (sampleWorld [sampleAccount 7] 7)
    "token signature is invalid: signature is invalid" (by decide) rfl).1]
  rfl

/-- C3. A request whose `x-jwt-token` header is absent or empty: `withJWTAuth`
returns the writer with the denial on it (body `ApiError("permission denied")`,
status 403 on a writer that had sent none) after printing its one line; the
outcome is the same for every verifier and every wrapped handler, so neither
is run. -/
theorem withJWTAuth_missing_token_denied (parse : jwt.ParseFn) (h : HandlerFunc)
    (w : http.ResponseWriter) (r : http.Request) (σ : World)
    (hm : r.Header.lookup "x-jwt-token" = none ∨ r.Header.lookup "x-jwt-token" = some "") :
    withJWTAuth parse h w r σ
        = .ret (permissionDenied w) (fmt.Println "With JWT Auth middleware" σ)
      ∧ (∀ parse2 h2, withJWTAuth parse2 h2 w r σ = withJWTAuth parse h w r σ)
      ∧ (permissionDenied w).body = w.body ++ [.apiError ⟨"permission denied"⟩]
      ∧ (w.status = none → (permissionDenied w).status = some 403) := by
  have hg : r.Header.Get "x-jwt-token" = "" := by
    unfold http.Header.Get
    rcases hm with hm | hm <;> rw [hm] <;> rfl
  have key : ∀ parse2 h2, withJWTAuth parse2 h2 w r σ
      = .ret (permissionDenied w) (fmt.Println "With JWT Auth middleware" σ) :=
    fun parse2 h2 => withJWTAuth_missing parse2 h2 w r σ hg
  exact ⟨key parse h, fun parse2 h2 => (key parse2 h2).trans (key parse h).symm,
    permissionDenied_body w, permissionDenied_status w⟩

/-- C3, worked input: `GET /account/7` without the header. -/
theorem withJWTAuth_missing_token_denied_witness :
    withJWTAuth sampleParse stopHandler .fresh (sampleRequestNoToken "7")
        (sampleWorld [sampleAccount 7] 7)
      = .ret ⟨[("Content-Type", "application/json")], some 403,
            [.apiError ⟨"permission denied"⟩]⟩
          ⟨["With JWT Auth middleware"], [], ⟨[sampleAccount 7], 7⟩⟩ := by
  rw [(withJWTAuth_missing_token_denied sampleParse stopHandler .fresh
    (sampleRequestNoToken "7") (sampleWorld [sampleAccount 7] 7) (Or.inl rfl)).1]
  decide

/-- C4. When the token header is non-empty, the token verifies and the path
id parses to the `AccountID` of the claims, `withJWTAuth` is exactly one run
of the wrapped handler on the writer and the request it received (the gate
has written nothing on the writer; it has only printed its two lines). In
every other case the outcome does not depend on the wrapped handler: the
handler is not run. -/
theorem withJWTAuth_runs_handler_iff (parse : jwt.ParseFn) (h : HandlerFunc)
    (w : http.ResponseWriter) (r : http.Request) (σ : World) :
    (∀ claims : MyCustomClaims,
        r.Header.Get "x-jwt-token" ≠ "" →
        parse (r.Header.Get "x-jwt-token") = .ok ⟨true, .custom claims⟩ →
        strconv.Atoi (r.PathValue "id") = (claims.AccountID, none) →
        withJWTAuth parse h w r σ = h w r (gateWorld claims σ))
      ∧ ((¬ ∃ claims : MyCustomClaims,
            r.Header.Get "x-jwt-token" ≠ ""
            ∧ parse (r.Header.Get "x-jwt-token") = .ok ⟨true, .custom claims⟩
            ∧ strconv.Atoi (r.PathValue "id") = (claims.AccountID, none)) →
          ∀ h2, withJWTAuth parse h2 w r σ = withJWTAuth parse h w r σ) := by
  refine ⟨fun claims hne hp hid =>
    withJWTAuth_pass parse h w r σ claims hne hp (getID_of_Atoi_ok r _ hid), fun hnot h2 => ?_⟩
  rcases withJWTAuth_cases parse w r σ with ⟨claims, hne, hp, hid, _⟩ | ⟨σ1, hd⟩ | ⟨σ1, hx⟩
  · exact absurd ⟨claims, hne, hp, (getID_ok_iff r _).1 hid⟩ hnot
  · rw [hd h2, hd h]
  · rw [hx h2, hx h]

/-- C4, worked input: the token of account 7 on `GET /account/7` runs the
handler once (its line is printed once, its answer is the only one); on
`GET /account/8` two different handlers give the same outcome. -/
theorem withJWTAuth_runs_handler_iff_witness :
    withJWTAuth sampleParse sampleHandler .fresh (sampleRequest "GET" "tok-7" "7")
        (sampleWorld [sampleAccount 7] 7)
      = .ret ⟨[("Content-Type", "application/json")], some 200, [.token "served"]⟩
          ⟨["With JWT Auth middleware", "4242 ", "handler"], [], ⟨[sampleAccount 7], 7⟩⟩
    ∧ withJWTAuth sampleParse stopHandler .fresh (sampleRequest "GET" "tok-7" "8")
        (sampleWorld [sampleAccount 7] 7)
      = withJWTAuth sampleParse sampleHandler .fresh (sampleRequest "GET" "tok-7" "8")
        (sampleWorld [sampleAccount 7] 7) := by
  constructor
  · rw [(withJWTAuth_runs_handler_iff sampleParse sampleHandler .fresh
      (sampleRequest "GET" "tok-7" "7") (sampleWorld [sampleAccount 7] 7)).1
      ⟨4242, 7, ⟨"", none⟩⟩ (by decide) rfl (by decide)]
    decide
  · refine (withJWTAuth_runs_handler_iff sampleParse sampleHandler .fresh
      (sampleRequest "GET" "tok-7" "8") (sampleWorld [sampleAccount 7] 7)).2 ?_ stopHandler
    rintro ⟨claims, -, hp, hid⟩
    have hc : claims = ⟨4242, 7, ⟨"", none⟩⟩ := by
      have hp2 : (Except.ok ⟨true, .custom ⟨4242, 7, ⟨"", none⟩⟩⟩ : Except String jwt.Token)
          = .ok ⟨true, .custom claims⟩ := hp
      injection hp2 with h1
      injection h1 with _ h2
      injection h2 with h3
      exact h3.symm
    subst hc
    revert hid
    decide

/-- The denials the gate returns. Call a request turned away when the gate
returns without running the wrapped handler, that is, when it returns the
same writer whatever the handler is.
For any two such requests (any verifiers, any worlds) that start from the
same writer, the writers returned are equal: each is the received writer with
`ApiError("permission denied")` encoded on it and, if no status had been
sent, status 403. A request whose token the library rejects with an error is
not among them: for it the gate does not return. -/
theorem withJWTAuth_returned_denials_identical (parse1 parse2 : jwt.ParseFn)
    (w : http.ResponseWriter) (r1 r2 : http.Request) (σ1 σ2 : World) (w1 w2 : http.ResponseWriter) (τ1 τ2 : World)
    (hd1 : ∀ h, withJWTAuth parse1 h w r1 σ1 = .ret w1 τ1)
    (hd2 : ∀ h, withJWTAuth parse2 h w r2 σ2 = .ret w2 τ2) :
    w1 = w2
      ∧ w1 = permissionDenied w
      ∧ w1.body = w.body ++ [.apiError ⟨"permission denied"⟩]
      ∧ (w.status = none → w1.status = some 403) := by
  have key : ∀ (parse : jwt.ParseFn) (r : http.Request) (σ : World) (w0 : http.ResponseWriter)
      (τ : World), (∀ h, withJWTAuth parse h w r σ = .ret w0 τ) → w0 = permissionDenied w := by
    intro parse r σ w0 τ hd
    rcases withJWTAuth_cases parse w r σ with ⟨claims, _, _, _, hpass⟩ | ⟨σ3, hden⟩ | ⟨σ3, hx⟩
    · have h1 := hd stopHandler
      rw [hpass stopHandler] at h1
      cases h1
    · have h1 := hd stopHandler
      rw [hden stopHandler] at h1
      injection h1 with h2 _
      exact h2.symm
    · have h1 := hd stopHandler
      rw [hx stopHandler] at h1
      cases h1
  have e1 := key parse1 r1 σ1 w1 τ1 hd1
  have e2 := key parse2 r2 σ2 w2 τ2 hd2
  refine ⟨e1.trans e2.symm, e1, ?_, ?_⟩
  · rw [e1]; exact permissionDenied_body w
  · intro hw; rw [e1]; exact permissionDenied_status w hw

/-- C5, what the code does. Two requests that both fail a check of the gate,
one without a token and one whose token the library rejects with an error,
on the same writer and in the same world: the first gets the denial
(`ApiError("permission denied")`, status 403 on a writer that had sent none),
the second ends the process with exit code 1 and gets no response at all,
there being no returned writer. The two outcomes differ, so the invalid
token is told apart from the missing one. -/
theorem withJWTAuth_rejected_token_gets_no_denial (parse : jwt.ParseFn) (h : HandlerFunc)
    (w : http.ResponseWriter) (r1 r2 : http.Request) (σ : World) (err : String)
    (hm : r1.Header.Get "x-jwt-token" = "")
    (hne : r2.Header.Get "x-jwt-token" ≠ "")
    (hp : parse (r2.Header.Get "x-jwt-token") = .error err) :
    withJWTAuth parse h w r1 σ
        = .ret (permissionDenied w) (fmt.Println "With JWT Auth middleware" σ)
      ∧ (permissionDenied w).body = w.body ++ [.apiError ⟨"permission denied"⟩]
      ∧ (w.status = none → (permissionDenied w).status = some 403)
      ∧ withJWTAuth parse h w r2 σ
        = .exit 1 ⟨σ.stdout ++ ["With JWT Auth middleware"], σ.log ++ [err], σ.db⟩
      ∧ (∀ w2 σ2, withJWTAuth parse h w r2 σ ≠ .ret w2 σ2)
      ∧ withJWTAuth parse h w r1 σ ≠ withJWTAuth parse h w r2 σ := by
  have k1 := withJWTAuth_missing parse h w r1 σ hm
  have k2 := withJWTAuth_parse_error parse h w r2 σ err hne hp
  refine ⟨k1, permissionDenied_body w, permissionDenied_status w, k2, ?_, ?_⟩
  · intro w2 σ2 hc
    rw [k2] at hc
    cases hc
  · rw [k1, k2]
    intro hc
    cases hc

/-- C5, worked input: `GET /account/7` without a token is answered 403, the
same request with a token the verifier rejects ends the process. -/
theorem withJWTAuth_rejected_token_gets_no_denial_witness :
    withJWTAuth sampleParse sampleHandler .fresh (sampleRequestNoToken "7")
        (sampleWorld [sampleAccount 7] 7)
      = .ret ⟨[("Content-Type", "application/json")], some 403,
            [.apiError ⟨"permission denied"⟩]⟩
          ⟨["With JWT Auth middleware"], [], ⟨[sampleAccount 7], 7⟩⟩
    ∧ withJWTAuth sampleParse sampleHandler .fresh (sampleRequest "GET" "forged" "7")
        (sampleWorld [sampleAccount 7] 7)
      = .exit 1 ⟨["With JWT Auth middleware"],
          ["token signature is invalid: signature is invalid"], ⟨[sampleAccount 7], 7⟩⟩ := by
  have key := withJWTAuth_rejected_token_gets_no_denial sampleParse sampleHandler .fresh
    (sampleRequestNoToken "7") (sampleRequest "GET" "forged" "7")
    (sampleWorld [sampleAccount 7] 7) "token signature is invalid: signature is invalid"
    rfl (by decide) rfl
  exact ⟨key.1.trans (by decide), key.2.2.2.1.trans rfl⟩


/-! ## The store -/

theorem DeleteAccount_eq (db : DB) (id : Int) :
    SQLiteStore.DeleteAccount db id
      = (⟨db.accounts.filter (fun a => a.ID != id), db.seq⟩, none) := rfl

theorem GetAccountByID_not_found (db : DB) (id : Int)
    (hno : ∀ a ∈ db.accounts, a.ID ≠ id) :
    SQLiteStore.GetAccountByID db id = .error ("account " ++ toString id ++ " not found") := by
  have hf : db.accounts.filter (fun a => a.ID == id) = [] := by
    rw [List.filter_eq_nil_iff]
    intro a ha
    simpa using hno a ha
  simp [SQLiteStore.GetAccountByID, sql.queryByID, hf]

theorem GetAccountByID_ok (db : DB) (id : Int) (a : Account)
    (hg : SQLiteStore.GetAccountByID db id = .ok a) : a.ID = id ∧ a ∈ db.accounts := by
  unfold SQLiteStore.GetAccountByID sql.queryByID at hg
  simp only at hg
  cases hf : db.accounts.filter (fun a => a.ID == id) with
  | nil => rw [hf] at hg; cases hg
  | cons row rest =>
    rw [hf] at hg
    have hrow : row ∈ db.accounts.filter (fun a => a.ID == id) := by rw [hf]; simp
    have hrow2 := List.mem_filter.1 hrow
    have ha : a = row := by
      simp only [scanIntoAccount] at hg
      injection hg with h1
      exact h1.symm
    subst ha
    exact ⟨by simpa using hrow2.2, hrow2.1⟩

/-- C9. For every table and every id, present in the table or not:
`DeleteAccount` returns no error; afterwards `GetAccountByID` with that id
fails with `account <id> not found`; no row with that id is left; the rows
with other ids are the same rows in the same order, so a lookup of any other
id gives what it gave before; and the id counter is untouched. -/
theorem DeleteAccount_then_GetAccountByID (db : DB) (id : Int) :
    (SQLiteStore.DeleteAccount db id).2 = none
      ∧ SQLiteStore.GetAccountByID (SQLiteStore.DeleteAccount db id).1 id
          = .error ("account " ++ toString id ++ " not found")
      ∧ (∀ a ∈ (SQLiteStore.DeleteAccount db id).1.accounts, a.ID ≠ id)
      ∧ (SQLiteStore.DeleteAccount db id).1.accounts.filter (fun a => a.ID != id)
          = db.accounts.filter (fun a => a.ID != id)
      ∧ (SQLiteStore.DeleteAccount db id).1.accounts.length
          = (db.accounts.filter (fun a => a.ID != id)).length
      ∧ (∀ id2, id2 ≠ id →
          SQLiteStore.GetAccountByID (SQLiteStore.DeleteAccount db id).1 id2
            = SQLiteStore.GetAccountByID db id2)
      ∧ (SQLiteStore.DeleteAccount db id).1.seq = db.seq := by
  have hrem : ∀ a ∈ (SQLiteStore.DeleteAccount db id).1.accounts, a.ID ≠ id := by
    intro a ha
    rw [DeleteAccount_eq] at ha
    simpa using (List.mem_filter.1 ha).2
  refine ⟨rfl, GetAccountByID_not_found _ id hrem, hrem, ?_, ?_, ?_, rfl⟩
  · rw [DeleteAccount_eq]
    simp [List.filter_filter]
  · rw [DeleteAccount_eq]
  · intro id2 hne
    have hf : (SQLiteStore.DeleteAccount db id).1.accounts.filter (fun a => a.ID == id2)
        = db.accounts.filter (fun a => a.ID == id2) := by
      rw [DeleteAccount_eq]
      simp only [List.filter_filter]
      apply List.filter_congr
      intro a _
      by_cases h : a.ID = id2
      · simp [h, hne]
      · simp [h]
    simp only [SQLiteStore.GetAccountByID, sql.queryByID, hf]

/-- C9, worked input: deleting id 7 from a table with the rows 7 and 8, and
deleting the absent id 9 from it. -/
theorem DeleteAccount_then_GetAccountByID_witness :
    SQLiteStore.DeleteAccount ⟨[sampleAccount 7, sampleAccount 8], 8⟩ 7
        = (⟨[sampleAccount 8], 8⟩, none)
      ∧ SQLiteStore.GetAccountByID ⟨[sampleAccount 8], 8⟩ 7 = .error "account 7 not found"
      ∧ SQLiteStore.GetAccountByID ⟨[sampleAccount 8], 8⟩ 8 = .ok (sampleAccount 8)
      ∧ SQLiteStore.DeleteAccount ⟨[sampleAccount 7, sampleAccount 8], 8⟩ 9
        = (⟨[sampleAccount 7, sampleAccount 8], 8⟩, none)
      ∧ SQLiteStore.GetAccountByID
          (SQLiteStore.DeleteAccount ⟨[sampleAccount 7, sampleAccount 8], 8⟩ 9).1 9
        = .error "account 9 not found" := by
  refine ⟨by decide, by rfl, by rfl, by decide, ?_⟩
  exact (DeleteAccount_then_GetAccountByID ⟨[sampleAccount 7, sampleAccount 8], 8⟩ 9).2.1

/-! ## The handlers -/

theorem WriteJSON_err (w : http.ResponseWriter) (status : Nat) (v : Value) :
    (WriteJSON w status v).2 = none := rfl

theorem WriteJSON_body (w : http.ResponseWriter) (status : Nat) (v : Value) :
    (WriteJSON w status v).1.body = w.body ++ [v] := by
  unfold WriteJSON http.ResponseWriter.WriteHeader
  cases w.status <;> rfl

theorem WriteJSON_status (w : http.ResponseWriter) (status : Nat) (v : Value)
    (hw : w.status = none) : (WriteJSON w status v).1.status = some status := by
  unfold WriteJSON http.ResponseWriter.WriteHeader
  simp [hw]

theorem WriteJSON_fresh (status : Nat) (v : Value) :
    WriteJSON .fresh status v
      = (⟨[("Content-Type", "application/json")], some status, [v]⟩, none) := rfl

/-- C7. When the body decodes to a transfer payload, `handleTransfer` encodes
exactly that payload with status 200 and returns no error; the world,
table included, is the one it started in, and the outcome is the same for
every server, that is for every store: the store is not used. The route
`POST /transfer` therefore answers 200 with the payload as its body. -/
theorem handleTransfer_echoes_payload (s : APIServer)
    (decode : String → Except String TranseferRequest) (w : http.ResponseWriter)
    (r : http.Request) (σ : World) (t : TranseferRequest)
    (hd : decode r.Body = .ok t) :
    s.handleTransfer decode w r σ = .ret (WriteJSON w http.StatusOK (.transfer t)) σ
      ∧ s.routeTransfer decode w r σ = .ret (WriteJSON w http.StatusOK (.transfer t)).1 σ
      ∧ (WriteJSON w http.StatusOK (.transfer t)).2 = none
      ∧ (WriteJSON w http.StatusOK (.transfer t)).1.body = w.body ++ [.transfer t]
      ∧ (w.status = none → (WriteJSON w http.StatusOK (.transfer t)).1.status = some 200)
      ∧ (∀ s2 : APIServer, s2.handleTransfer decode w r σ = s.handleTransfer decode w r σ) := by
  have key : ∀ s2 : APIServer,
      s2.handleTransfer decode w r σ = .ret (WriteJSON w http.StatusOK (.transfer t)) σ := by
    intro s2
    simp [APIServer.handleTransfer, hd]
  refine ⟨key s, ?_, rfl, WriteJSON_body _ _ _, WriteJSON_status _ _ _, fun s2 =>
    (key s2).trans (key s).symm⟩
  unfold APIServer.routeTransfer makeHTTPHandleFunc
  rw [key s]
  rfl

/-- C7, worked input: the payload with `toAccount` 5 and `amount` 100 on a table
with one row. -/
theorem handleTransfer_echoes_payload_witness :
    (NewAPIServer ":3000" NewSQLiteStore).routeTransfer sampleDecodeTransfer .fresh
        sampleTransferRequest (sampleWorld [sampleAccount 5] 5)
      = .ret ⟨[("Content-Type", "application/json")], some 200, [.transfer ⟨5, 100⟩]⟩
          (sampleWorld [sampleAccount 5] 5) := by
  rw [(handleTransfer_echoes_payload (NewAPIServer ":3000" NewSQLiteStore) sampleDecodeTransfer
    .fresh sampleTransferRequest (sampleWorld [sampleAccount 5] 5) ⟨5, 100⟩ (by rfl)).2.1]
  rfl

theorem handleGetAccountByID_error_writer (s : APIServer) (w w1 : http.ResponseWriter)
    (r : http.Request) (σ σ1 : World) (err : String)
    (he : s.handleGetAccountByID w r σ = .ret (w1, some err) σ1) : w1 = w := by
  unfold APIServer.handleGetAccountByID at he
  rcases hid : getID r with ⟨id, e⟩
  rw [hid] at he
  cases e with
  | some e => simp at he; exact he.1.1.symm
  | none =>
    simp only at he
    cases hg : s.store.GetAccountByID σ.db id with
    | error e2 => rw [hg] at he; simp at he; exact he.1.1.symm
    | ok a => rw [hg] at he; simp [WriteJSON] at he

theorem handleDeleteAccount_error_writer (s : APIServer) (w w1 : http.ResponseWriter)
    (r : http.Request) (σ σ1 : World) (err : String)
    (he : s.handleDeleteAccount w r σ = .ret (w1, some err) σ1) : w1 = w := by
  unfold APIServer.handleDeleteAccount at he
  rcases hid : getID r with ⟨id, e⟩
  rw [hid] at he
  cases e with
  | some e => simp at he; exact he.1.1.symm
  | none =>
    simp only at he
    rcases hg : s.store.DeleteAccount σ.db id with ⟨db1, e2⟩
    rw [hg] at he
    cases e2 with
    | some e2 => simp at he; exact he.1.1.symm
    | none => simp [WriteJSON] at he

theorem handleGetAccount_error_writer (s : APIServer) (w w1 : http.ResponseWriter)
    (r : http.Request) (σ σ1 : World) (err : String)
    (he : s.handleGetAccount w r σ = .ret (w1, some err) σ1) : w1 = w := by
  unfold APIServer.handleGetAccount at he
  cases hg : s.store.GetAccounts σ.db with
  | error e2 => rw [hg] at he; simp at he; exact he.1.1.symm
  | ok a => rw [hg] at he; simp [WriteJSON] at he

theorem handleTransfer_error_writer (s : APIServer)
    (decode : String → Except String TranseferRequest) (w w1 : http.ResponseWriter)
    (r : http.Request) (σ σ1 : World) (err : String)
    (he : s.handleTransfer decode w r σ = .ret (w1, some err) σ1) : w1 = w := by
  unfold APIServer.handleTransfer at he
  cases hg : decode r.Body with
  | error e2 => rw [hg] at he; simp at he; exact he.1.1.symm
  | ok a => rw [hg] at he; simp [WriteJSON] at he

theorem handleCreateAccount_error_writer (s : APIServer)
    (decode : String → Except String CreateAccountRequest)
    (NewAccount : String → String → Account)
    (createAccount : DB → Account → DB × Int × Option String) (sign : jwt.SignFn)
    (w w1 : http.ResponseWriter) (r : http.Request) (σ σ1 : World) (err : String)
    (he : s.handleCreateAccount decode NewAccount createAccount sign w r σ
      = .ret (w1, some err) σ1) : w1 = w := by
  unfold APIServer.handleCreateAccount at he
  cases hg : decode r.Body with
  | error e2 => rw [hg] at he; simp at he; exact he.1.1.symm
  | ok req =>
    rw [hg] at he
    simp only at he
    rcases hc : createAccount σ.db (NewAccount req.FirstName req.LastName) with ⟨db1, id, e3⟩
    rw [hc] at he
    cases e3 with
    | some e3 => simp at he; exact he.1.1.symm
    | none =>
      simp only at he
      cases hs : createJWT sign { NewAccount req.FirstName req.LastName with ID := id } with
      | error e4 => rw [hs] at he; simp at he; exact he.1.1.symm
      | ok tok => rw [hs] at he; simp [WriteJSON] at he

/-- C8. For every handler `f` wrapped by `makeHTTPHandleFunc`: if `f` returns an
error, the wrapper encodes `ApiError(message)` with status 500 on the writer
`f` left, and that is all it does; if `f` returns no error, the wrapper
adds nothing to what `f` did. Each of the five handlers of this server
returns an error only before it has written anything, so for them the
response is the 500 with the message on the writer the request came with. In
particular the gated route `GET /account/(id)` over the SQLite store, for a
token that passes the gate and an id with no row, answers 500 with the
store's message `account <id> not found`. -/
theorem makeHTTPHandleFunc_error_is_500 (f : apiFunc) (w : http.ResponseWriter)
    (r : http.Request) (σ : World) :
    (∀ w1 σ1 err, f w r σ = .ret (w1, some err) σ1 →
        makeHTTPHandleFunc f w r σ
            = .ret (WriteJSON w1 http.StatusInternalServerError (.apiError ⟨err⟩)).1 σ1
          ∧ (WriteJSON w1 http.StatusInternalServerError (.apiError ⟨err⟩)).1.body
              = w1.body ++ [.apiError ⟨err⟩]
          ∧ (w1.status = none →
              (WriteJSON w1 http.StatusInternalServerError (.apiError ⟨err⟩)).1.status
                = some 500))
      ∧ (∀ w1 σ1, f w r σ = .ret (w1, none) σ1 → makeHTTPHandleFunc f w r σ = .ret w1 σ1)
      ∧ (∀ (s : APIServer) (decodeT : String → Except String TranseferRequest)
          (decodeC : String → Except String CreateAccountRequest)
          (NewAccount : String → String → Account)
          (createAccount : DB → Account → DB × Int × Option String) (sign : jwt.SignFn),
          (f = s.handleGetAccountByID ∨ f = s.handleDeleteAccount ∨ f = s.handleGetAccount
            ∨ f = s.handleTransfer decodeT
            ∨ f = s.handleCreateAccount decodeC NewAccount createAccount sign) →
          ∀ w1 σ1 err, f w r σ = .ret (w1, some err) σ1 →
            makeHTTPHandleFunc f w r σ
              = .ret (WriteJSON w http.StatusInternalServerError (.apiError ⟨err⟩)).1 σ1)
      ∧ (∀ (parse : jwt.ParseFn) (claims : MyCustomClaims) (addr : String),
          r.Header.Get "x-jwt-token" ≠ "" →
          parse (r.Header.Get "x-jwt-token") = .ok ⟨true, .custom claims⟩ →
          strconv.Atoi (r.PathValue "id") = (claims.AccountID, none) →
          (∀ a ∈ σ.db.accounts, a.ID ≠ claims.AccountID) →
          (NewAPIServer addr NewSQLiteStore).routeGetAccountByID parse w r σ
            = .ret (WriteJSON w http.StatusInternalServerError
                (.apiError ⟨"account " ++ toString claims.AccountID ++ " not found"⟩)).1
                (gateWorld claims σ)) := by
  have herr : ∀ w1 σ1 err, f w r σ = .ret (w1, some err) σ1 →
      makeHTTPHandleFunc f w r σ
        = .ret (WriteJSON w1 http.StatusInternalServerError (.apiError ⟨err⟩)).1 σ1 := by
    intro w1 σ1 err hf
    unfold makeHTTPHandleFunc
    rw [hf]
  refine ⟨fun w1 σ1 err hf => ⟨herr w1 σ1 err hf, WriteJSON_body _ _ _, WriteJSON_status _ _ _⟩,
    ?_, ?_, ?_⟩
  · intro w1 σ1 hf
    unfold makeHTTPHandleFunc
    rw [hf]
  · intro s decodeT decodeC NewAccount createAccount sign hcase w1 σ1 err hf
    have hw : w1 = w := by
      rcases hcase with h | h | h | h | h <;> subst h
      · exact handleGetAccountByID_error_writer s w w1 r σ σ1 err hf
      · exact handleDeleteAccount_error_writer s w w1 r σ σ1 err hf
      · exact handleGetAccount_error_writer s w w1 r σ σ1 err hf
      · exact handleTransfer_error_writer s decodeT w w1 r σ σ1 err hf
      · exact handleCreateAccount_error_writer s decodeC NewAccount createAccount sign
          w w1 r σ σ1 err hf
    rw [herr w1 σ1 err hf, hw]
  · intro parse claims addr hne hp hid hno
    unfold APIServer.routeGetAccountByID
    rw [withJWTAuth_pass parse _ w r σ claims hne hp (getID_of_Atoi_ok r _ hid)]
    have hg : SQLiteStore.GetAccountByID (gateWorld claims σ).db claims.AccountID
        = .error ("account " ++ toString claims.AccountID ++ " not found") :=
      GetAccountByID_not_found _ _ hno
    simp only [makeHTTPHandleFunc, APIServer.handleGetAccountByID, NewAPIServer, NewSQLiteStore,
      getID_of_Atoi_ok r _ hid, hg]

/-- C8, worked input: `GET /account/7` with the token of account 7 on a table
whose only row has id 8. -/
theorem makeHTTPHandleFunc_error_is_500_witness :
    (NewAPIServer ":3000" NewSQLiteStore).routeGetAccountByID sampleParse .fresh
        (sampleRequest "GET" "tok-7" "7") (sampleWorld [sampleAccount 8] 8)
      = .ret ⟨[("Content-Type", "application/json")], some 500,
            [.apiError ⟨"account 7 not found"⟩]⟩
          ⟨["With JWT Auth middleware", "4242 "], [], ⟨[sampleAccount 8], 8⟩⟩ := by
  rw [(makeHTTPHandleFunc_error_is_500 (NewAPIServer ":3000" NewSQLiteStore).handleGetAccountByID
    .fresh (sampleRequest "GET" "tok-7" "7") (sampleWorld [sampleAccount 8] 8)).2.2.2
    sampleParse ⟨4242, 7, ⟨"", none⟩⟩ ":3000" (by decide) rfl (by decide) (by decide)]
  rfl

/-- C10. Whenever the gate runs the wrapped handler (the outcome of the gate
depends on which handler is wrapped), the token carried valid claims and
`getID` on the request the handler receives returns the `AccountID` of those
claims without error, so the invalid-id branch of the handler is not
taken; the gated get route is then the store's `GetAccountByID` called with
that `AccountID`, and the gated delete route is the store's `DeleteAccount`
called with that `AccountID`, for every store. Over the SQLite store, an
account that is read has that id, and deleting leaves every row with another
id in the table. -/
theorem gated_handlers_use_token_id (parse : jwt.ParseFn) (s : APIServer)
    (w : http.ResponseWriter) (r : http.Request) (σ : World)
    (hinv : ∃ h1 h2 : HandlerFunc, withJWTAuth parse h1 w r σ ≠ withJWTAuth parse h2 w r σ) :
    ∃ claims : MyCustomClaims,
      parse (r.Header.Get "x-jwt-token") = .ok ⟨true, .custom claims⟩
      ∧ getID r = (claims.AccountID, none)
      ∧ s.routeGetAccountByID parse w r σ
          = (match s.store.GetAccountByID σ.db claims.AccountID with
            | .error err =>
              .ret (WriteJSON w http.StatusInternalServerError (.apiError ⟨err⟩)).1
                (gateWorld claims σ)
            | .ok account =>
              .ret (WriteJSON w http.StatusOK (.account account)).1 (gateWorld claims σ))
      ∧ s.routeDeleteAccount parse w r σ
          = (match s.store.DeleteAccount σ.db claims.AccountID with
            | (db1, some err) =>
              .ret (WriteJSON w http.StatusInternalServerError (.apiError ⟨err⟩)).1
                { gateWorld claims σ with db := db1 }
            | (db1, none) =>
              .ret (WriteJSON w http.StatusOK (.deleted claims.AccountID)).1
                { gateWorld claims σ with db := db1 })
      ∧ (∀ a, SQLiteStore.GetAccountByID σ.db claims.AccountID = .ok a →
          a.ID = claims.AccountID)
      ∧ (∀ a ∈ σ.db.accounts, a.ID ≠ claims.AccountID →
          a ∈ (SQLiteStore.DeleteAccount σ.db claims.AccountID).1.accounts) := by
  obtain ⟨h1, h2, hdiff⟩ := hinv
  rcases withJWTAuth_cases parse w r σ with ⟨claims, hne, hp, hid, hpass⟩ | ⟨σ1, hd⟩ | ⟨σ1, hx⟩
  · refine ⟨claims, hp, hid, ?_, ?_, fun a ha => (GetAccountByID_ok _ _ a ha).1, ?_⟩
    · unfold APIServer.routeGetAccountByID
      rw [hpass]
      simp only [makeHTTPHandleFunc, APIServer.handleGetAccountByID, hid]
      have hdb : (gateWorld claims σ).db = σ.db := rfl
      rw [hdb]
      cases s.store.GetAccountByID σ.db claims.AccountID <;> rfl
    · unfold APIServer.routeDeleteAccount
      rw [hpass]
      simp only [makeHTTPHandleFunc, APIServer.handleDeleteAccount, hid]
      have hdb : (gateWorld claims σ).db = σ.db := rfl
      rw [hdb]
      rcases s.store.DeleteAccount σ.db claims.AccountID with ⟨db1, e⟩
      cases e <;> rfl
    · intro a ha hne2
      rw [DeleteAccount_eq]
      exact List.mem_filter.2 ⟨ha, by simpa using hne2⟩
  · exact absurd ((hd h1).trans (hd h2).symm) hdiff
  · exact absurd ((hx h1).trans (hx h2).symm) hdiff

/-- C10, worked input: `DELETE /account/7` with the token of account 7 on a
table with the rows 7 and 8 removes row 7 and keeps row 8. -/
theorem gated_handlers_use_token_id_witness :
    (∃ claims : MyCustomClaims,
      sampleParse "tok-7" = .ok ⟨true, .custom claims⟩
      ∧ getID (sampleRequest "DELETE" "tok-7" "7") = (claims.AccountID, none))
    ∧ (NewAPIServer ":3000" NewSQLiteStore).routeDeleteAccount sampleParse .fresh
        (sampleRequest "DELETE" "tok-7" "7") (sampleWorld [sampleAccount 7, sampleAccount 8] 8)
      = .ret ⟨[("Content-Type", "application/json")], some 200, [.deleted 7]⟩
          ⟨["With JWT Auth middleware", "4242 "], [], ⟨[sampleAccount 8], 8⟩⟩ := by
  constructor
  · obtain ⟨claims, hp, hid, _⟩ := gated_handlers_use_token_id sampleParse
      (NewAPIServer ":3000" NewSQLiteStore) .fresh (sampleRequest "DELETE" "tok-7" "7")
      (sampleWorld [sampleAccount 7, sampleAccount 8] 8)
      ⟨sampleHandler, stopHandler, by decide⟩
    exact ⟨claims, hp, hid⟩
  · decide

/-! ## Creating an account -/

end GoBank
